import Mathlib

/-!
Verification development for the Bedrock gateway repository.

Shallow embedding of the pure translation logic of
`src/gateway/server.py`, `src/auth/aws_auth.py` and
`src/monitoring/tracker.py`.  Side-effecting calls (the provider SDK,
the STS identity check, the wall clock) are modelled as explicit
inputs; machine behaviour such as Python truthiness is carried over
literally.
-/

namespace Gateway

/-! ## Stream translator (`stream_bedrock_response`)

A provider stream event is either a dict containing a `chunk` key
(whose parsed bytes may carry a `delta.text` fragment and a `type`
tag), a dict without a `chunk` key, or a point at which iterating the
provider stream raises an exception.  The generator's emitted SSE
frames are modelled symbolically: a content chunk frame, the terminal
sentinel `data: [DONE]`, or an error frame. -/

inductive StreamEvent where
  | chunk (deltaText : Option String) (type : Option String)
  | nonChunk
  | raiseExc (msg : String)
  deriving DecidableEq, Repr

inductive Frame where
  | content (text : String)
  | done
  | error (msg : String)
  deriving DecidableEq, Repr

/-- The body of the `for event in stream` loop of
`stream_bedrock_response`, lines 285-308: one content frame per
`delta.text`, the sentinel plus `break` on `type == "message_stop"`,
and the `except` clause turning an exception into a single error
frame that ends the generator. -/
def processEvents : List StreamEvent → List Frame
  | [] => []
  | StreamEvent.nonChunk :: rest => processEvents rest
  | StreamEvent.raiseExc m :: _ => [Frame.error m]
  | StreamEvent.chunk deltaText type :: rest =>
      let contentFrames : List Frame :=
        match deltaText with
        | some t => [Frame.content t]
        | none => []
      if type == some "message_stop" then
        contentFrames ++ [Frame.done]
      else
        contentFrames ++ processEvents rest

/-- `stream_bedrock_response` after the provider call: `response.get("body")`
may be absent (`none`), in which case a single error frame is emitted and
the generator returns at once. -/
def stream_bedrock_response (body : Option (List StreamEvent)) : List Frame :=
  match body with
  | none => [Frame.error "No response stream"]
  | some events => processEvents events

def isStopEvent : StreamEvent → Bool
  | StreamEvent.chunk _ type => type == some "message_stop"
  | _ => false

def isRaiseEvent : StreamEvent → Bool
  | StreamEvent.raiseExc _ => true
  | _ => false

/-- The content frames produced by a raise-free, stop-free run of the loop. -/
def deltaFrames (events : List StreamEvent) : List Frame :=
  events.filterMap fun e =>
    match e with
    | StreamEvent.chunk (some t) _ => some (Frame.content t)
    | _ => none

def countDone : List Frame → Nat
  | [] => 0
  | Frame.done :: rest => countDone rest + 1
  | _ :: rest => countDone rest

def countError : List Frame → Nat
  | [] => 0
  | Frame.error _ :: rest => countError rest + 1
  | _ :: rest => countError rest

/-! ## Message conversion (`convert_messages`)

`ChatMessage.role` is an unvalidated string (the pydantic model only
requires `role : str`).  The loop threads the growing Bedrock message
list and the `system_message` variable exactly as the Python `for`
loop does. -/

structure ChatMessage where
  role : String
  content : String
  deriving DecidableEq, Repr

structure BedrockMessage where
  role : String
  content : String
  deriving DecidableEq, Repr

/-- The `for msg in messages` loop of `convert_messages`, lines
242-249, as a tail recursion over the remaining messages carrying the
accumulated `bedrock_messages` list and the `system_message`
variable. -/
def convertMessagesAux : List ChatMessage → List BedrockMessage × Option String →
    List BedrockMessage × Option String
  | [], acc => acc
  | msg :: rest, (msgs, sys) =>
      if msg.role == "system" then
        convertMessagesAux rest (msgs, some msg.content)
      else if msg.role == "user" || msg.role == "assistant" then
        convertMessagesAux rest (msgs ++ [⟨msg.role, msg.content⟩], sys)
      else
        convertMessagesAux rest (msgs, sys)

/-- `convert_messages` returns `bedrock_messages` (line 255); the local
`result` dict that also holds the system message is discarded. -/
def convert_messages (messages : List ChatMessage) : List BedrockMessage :=
  (convertMessagesAux messages ([], none)).1

/-- The final value of the `system_message` local variable of
`convert_messages`. -/
def systemMessageVar (messages : List ChatMessage) : Option String :=
  (convertMessagesAux messages ([], none)).2

/-- Python truthiness of an optional string: `None` and `""` are falsy. -/
def truthyStr : Option String → Bool
  | none => false
  | some s => !s.isEmpty

/-- The `result` dict built on lines 251-253 of `convert_messages`:
the message list plus a `system` entry added only when the
`system_message` variable is truthy.  The function never returns it. -/
def convertMessagesResult (messages : List ChatMessage) :
    List BedrockMessage × Option String :=
  let msgs := convert_messages messages
  let sys := systemMessageVar messages
  (msgs, if truthyStr sys then sys else none)

/-! ## Model name mapping (`map_model_name`) -/

/-- The `model_mapping` dict literal of `map_model_name`. -/
def model_mapping : List (String × String) :=
  [("claude-sonnet-4.5", "anthropic.claude-sonnet-4-5-20250929-v1:0"),
   ("claude-haiku-4.5", "anthropic.claude-haiku-4-5-20251001-v1:0"),
   ("gpt-4", "anthropic.claude-sonnet-4-5-20250929-v1:0"),
   ("gpt-3.5-turbo", "anthropic.claude-haiku-4-5-20251001-v1:0")]

/-- `pat.leadsWith s`: `pat` begins `s` (character lists). -/
def leadsWith : List Char → List Char → Bool
  | [], _ => true
  | _ :: _, [] => false
  | a :: as, b :: bs => a == b && leadsWith as bs

/-- Python's `pat in s` substring test on character lists. -/
def occursIn (pat : List Char) : List Char → Bool
  | [] => leadsWith pat []
  | c :: cs => leadsWith pat (c :: cs) || occursIn pat cs

/-- The provider namespace marker tested on line 222. -/
def bedrockMarker : List Char := "anthropic.claude".data

/-- `map_model_name`, lines 204-226: pass provider-native ids through,
otherwise look the alias up in `model_mapping` with the flagship model
as dict-get default. -/
def map_model_name (openai_model : String) : String :=
  if occursIn bedrockMarker openai_model.data then
    openai_model
  else
    (model_mapping.lookup openai_model).getD "anthropic.claude-sonnet-4-5-20250929-v1:0"

/-! ## Non-streaming response conversion (`convert_to_openai_format`)

A provider content block carries its `type` tag; only `"text"` blocks
carry the concatenated text.  The `usage` dict and its two token
entries may each be absent, defaulting to 0 through `.get`. -/

inductive ContentBlock where
  | text (s : String)
  | other (type : String)
  deriving DecidableEq, Repr

structure BedrockUsage where
  input_tokens : Option Nat
  output_tokens : Option Nat
  deriving DecidableEq, Repr

structure BedrockResponse where
  content : Option (List ContentBlock)
  usage : Option BedrockUsage
  deriving DecidableEq, Repr

def usageInputTokens (resp : BedrockResponse) : Nat :=
  match resp.usage with
  | some u => u.input_tokens.getD 0
  | none => 0

def usageOutputTokens (resp : BedrockResponse) : Nat :=
  match resp.usage with
  | some u => u.output_tokens.getD 0
  | none => 0

structure Choice where
  index : Nat
  message : BedrockMessage
  finish_reason : String
  deriving DecidableEq, Repr

structure UsageOut where
  prompt_tokens : Nat
  completion_tokens : Nat
  total_tokens : Nat
  deriving DecidableEq, Repr

structure ChatCompletionResponse where
  id : String
  object : String
  created : Nat
  model : String
  choices : List Choice
  usage : UsageOut
  deriving DecidableEq, Repr

/-- `convert_to_openai_format`, lines 316-356; `now` stands for the
wall-clock timestamp read twice via `datetime.now()`. -/
def convert_to_openai_format (bedrock_response : BedrockResponse)
    (original_model : String) (now : Nat) : ChatCompletionResponse :=
  let content :=
    match bedrock_response.content with
    | some blocks =>
        blocks.foldl (fun acc b =>
          match b with
          | ContentBlock.text s => acc ++ s
          | ContentBlock.other _ => acc) ""
    | none => ""
  { id := "chatcmpl-" ++ toString now
    object := "chat.completion"
    created := now
    model := original_model
    choices := [{ index := 0
                  message := { role := "assistant", content := content }
                  finish_reason := "stop" }]
    usage := { prompt_tokens := usageInputTokens bedrock_response
               completion_tokens := usageOutputTokens bedrock_response
               total_tokens := usageInputTokens bedrock_response +
                 usageOutputTokens bedrock_response } }

/-- The texts of the text-typed blocks of a provider response, in order. -/
def textBlocks (resp : BedrockResponse) : List String :=
  (resp.content.getD []).filterMap fun b =>
    match b with
    | ContentBlock.text s => some s
    | ContentBlock.other _ => none

/-- In-order concatenation of a list of strings. -/
def concatTexts : List String → String
  | [] => ""
  | s :: rest => s ++ concatTexts rest

/-! ## Request building in `chat_completions`

The pydantic request model: `temperature` defaults to 1.0,
`max_tokens`, `top_p` and `stop` are optional.  The handler builds the
`bedrock_request` dict on lines 161-172; `request.max_tokens or 4096`
and the `if request.top_p:` / `if request.stop:` guards use Python
truthiness (0, 0.0 and `[]` are falsy).  The dict never receives a
`system` entry. -/

structure ChatCompletionRequest where
  model : String
  messages : List ChatMessage
  temperature : ℚ
  max_tokens : Option Nat
  stream : Bool
  top_p : Option ℚ
  stop : Option (List String)
  deriving DecidableEq, Repr

structure BedrockRequest where
  max_tokens : Nat
  messages : List BedrockMessage
  temperature : ℚ
  top_p : Option ℚ
  stop_sequences : Option (List String)
  system : Option String
  deriving DecidableEq, Repr

/-- Lines 161-172 of `chat_completions`: the provider request dict. -/
def buildBedrockRequest (request : ChatCompletionRequest) : BedrockRequest :=
  { max_tokens :=
      match request.max_tokens with
      | some n => if n == 0 then 4096 else n
      | none => 4096
    messages := convert_messages request.messages
    temperature := request.temperature
    top_p :=
      match request.top_p with
      | some p => if p == 0 then none else some p
      | none => none
    stop_sequences :=
      match request.stop with
      | some l => if l.isEmpty then none else some l
      | none => none
    system := none }

end Gateway

namespace Auth

/-! ## Credential resolver (`aws_auth.py`)

Environment variables are optional strings; `os.getenv` truthiness
treats `None` and `""` alike.  The STS calls (the credential test
inside the CLI and profile construction branches, and the final
`_verify_credentials` identity check) are side effects, modelled as
oracle outcomes carried by a `World`: success with an ARN, or a raised
Python exception of a given class. -/

inductive PyExc where
  | noCredentialsError (msg : String)
  | clientError (msg : String)
  | valueError (msg : String)
  | otherExc (msg : String)
  deriving DecidableEq, Repr

inductive AuthMethod where
  | AWS_CLI
  | ENV_VARS
  | SSO_PROFILE
  | BEDROCK_API_KEY
  deriving DecidableEq, Repr

/-- A constructed `boto3.Session`: the keyword arguments it was built
from. -/
structure Session where
  region_name : String
  profile_name : Option String
  aws_access_key_id : Option String
  aws_secret_access_key : Option String
  deriving DecidableEq, Repr

/-- Environment and oracle outcomes of the STS network calls. -/
structure World where
  bearerToken : Option String
  awsProfile : Option String
  accessKeyId : Option String
  secretAccessKey : Option String
  awsRegion : Option String
  cliStsCall : Except PyExc String
  profileStsCall : Except PyExc String
  verifyStsCall : Except PyExc String
  deriving Repr

def truthyEnv : Option String → Bool
  | none => false
  | some s => !s.isEmpty

/-- `_detect_auth_method`, lines 85-105: first environment signal wins. -/
def detect_auth_method (w : World) : AuthMethod :=
  if truthyEnv w.bearerToken then AuthMethod.BEDROCK_API_KEY
  else if truthyEnv w.awsProfile then AuthMethod.SSO_PROFILE
  else if truthyEnv w.accessKeyId && truthyEnv w.secretAccessKey then AuthMethod.ENV_VARS
  else AuthMethod.AWS_CLI

/-- `_authenticate_with_cli`, lines 107-117: build a default session,
test it against STS; only `NoCredentialsError` is caught and
re-raised with the CLI hint, every other exception propagates. -/
def authenticate_with_cli (w : World) (region : String) : Except PyExc Session :=
  match w.cliStsCall with
  | Except.ok _ => Except.ok ⟨region, none, none, none⟩
  | Except.error (PyExc.noCredentialsError _) =>
      Except.error (PyExc.noCredentialsError
        "AWS CLI credentials not found. Run aws configure or set environment variables.")
  | Except.error e => Except.error e

/-- `_authenticate_with_env_vars`, lines 119-136: no STS test; missing
(or empty) keys raise `NoCredentialsError`. -/
def authenticate_with_env_vars (w : World) (region : String) : Except PyExc Session :=
  if !truthyEnv w.accessKeyId || !truthyEnv w.secretAccessKey then
    Except.error (PyExc.noCredentialsError
      "AWS_ACCESS_KEY_ID and AWS_SECRET_ACCESS_KEY must be set")
  else
    Except.ok ⟨w.awsRegion.getD region, none, w.accessKeyId, w.secretAccessKey⟩

/-- `_authenticate_with_profile`, lines 138-153. -/
def authenticate_with_profile (w : World) (region : String) : Except PyExc Session :=
  match w.awsProfile with
  | none => Except.error (PyExc.valueError "AWS_PROFILE environment variable not set")
  | some p =>
      match w.profileStsCall with
      | Except.ok _ => Except.ok ⟨region, some p, none, none⟩
      | Except.error (PyExc.noCredentialsError _) =>
          Except.error (PyExc.noCredentialsError
            ("Profile " ++ p ++ " not found or credentials expired."))
      | Except.error e => Except.error e

/-- `_authenticate_with_api_key`, lines 155-172: requires the bearer
token, then falls back to the CLI branch. -/
def authenticate_with_api_key (w : World) (region : String) : Except PyExc Session :=
  match w.bearerToken with
  | none => Except.error (PyExc.valueError "AWS_BEARER_TOKEN_BEDROCK environment variable not set")
  | some _ => authenticate_with_cli w region

/-- The construction branch selected by `authenticate` for a method. -/
def constructSession (w : World) (region : String) (m : AuthMethod) : Except PyExc Session :=
  match m with
  | AuthMethod.BEDROCK_API_KEY => authenticate_with_api_key w region
  | AuthMethod.SSO_PROFILE => authenticate_with_profile w region
  | AuthMethod.ENV_VARS => authenticate_with_env_vars w region
  | AuthMethod.AWS_CLI => authenticate_with_cli w region

/-- `_verify_credentials`, lines 174-184: the identity check; only
`ClientError` is converted to `NoCredentialsError`, other exception
classes propagate unchanged. -/
def verify_credentials (w : World) : Except PyExc Unit :=
  match w.verifyStsCall with
  | Except.ok _ => Except.ok ()
  | Except.error (PyExc.clientError m) =>
      Except.error (PyExc.noCredentialsError ("Invalid credentials: " ++ m))
  | Except.error e => Except.error e

/-- `authenticate`, lines 49-83: pick the method (explicit or
auto-detected), run its construction branch, then the mandatory
verification, and only then return the session. -/
def authenticate (w : World) (region : String) (method : Option AuthMethod) :
    Except PyExc Session :=
  match constructSession w region (method.getD (detect_auth_method w)) with
  | Except.error e => Except.error e
  | Except.ok s =>
      match verify_credentials w with
      | Except.error e => Except.error e
      | Except.ok _ => Except.ok s

def isNoCredentials : PyExc → Bool
  | PyExc.noCredentialsError _ => true
  | _ => false

end Auth

namespace Tracker

/-! ## Usage/cost tracker (`monitoring/tracker.py`)

Python floats are modelled as exact rationals; for the inputs the
claims quantify over (per-million prices against a multiple of one
million tokens) the float computation is exact, so the rational model
agrees with the source.  Timestamps are irrelevant to the claims and
are threaded as opaque strings. -/

structure TokenUsage where
  input_tokens : Nat
  output_tokens : Nat
  total_tokens : Nat
  timestamp : String
  deriving DecidableEq, Repr

/-- `TokenUsage.__post_init__`: a falsy (zero) `total_tokens` is
replaced by the sum. -/
def tokenUsagePostInit (u : TokenUsage) : TokenUsage :=
  if u.total_tokens == 0 then
    { u with total_tokens := u.input_tokens + u.output_tokens }
  else u

structure CostMetrics where
  model_id : String
  input_cost : ℚ
  output_cost : ℚ
  total_cost : ℚ
  timestamp : String
  deriving DecidableEq, Repr

/-- `CostMetrics.__post_init__`: a falsy (zero) `total_cost` is
replaced by the sum. -/
def costMetricsPostInit (c : CostMetrics) : CostMetrics :=
  if c.total_cost == 0 then
    { c with total_cost := c.input_cost + c.output_cost }
  else c

/-- The `PRICING` class dict: per-1M-token prices. -/
def PRICING : List (String × ℚ × ℚ) :=
  [("anthropic.claude-sonnet-4-5-20250929-v1:0", (3, 15)),
   ("anthropic.claude-haiku-4-5-20251001-v1:0", (0.25, 1.25))]

structure CostResult where
  input_cost : ℚ
  output_cost : ℚ
  total_cost : ℚ
  deriving DecidableEq, Repr

/-- `UsageTracker._calculate_cost`, lines 120-147: dict-get with the
haiku entry as fallback, then per-million proration. -/
def calculate_cost (model_id : String) (input_tokens output_tokens : Nat) : CostResult :=
  let pricing := (PRICING.lookup model_id).getD
    ((PRICING.lookup "anthropic.claude-haiku-4-5-20251001-v1:0").getD (0, 0))
  let input_cost := (input_tokens : ℚ) / 1000000 * pricing.1
  let output_cost := (output_tokens : ℚ) / 1000000 * pricing.2
  { input_cost := input_cost
    output_cost := output_cost
    total_cost := input_cost + output_cost }

structure UsageTracker where
  usage_history : List TokenUsage
  cost_history : List CostMetrics
  deriving DecidableEq, Repr

/-- `UsageTracker.record_usage`, lines 76-118: append a `TokenUsage`
and a `CostMetrics` entry and return both; total by construction, so
it never raises. `now` stands for `datetime.utcnow().isoformat()`. -/
def record_usage (t : UsageTracker) (model_id : String)
    (input_tokens output_tokens : Nat) (now : String) :
    UsageTracker × TokenUsage × CostMetrics :=
  let usage := tokenUsagePostInit
    { input_tokens := input_tokens, output_tokens := output_tokens
      total_tokens := 0, timestamp := now }
  let cost := calculate_cost model_id input_tokens output_tokens
  let cost_metrics := costMetricsPostInit
    { model_id := model_id, input_cost := cost.input_cost
      output_cost := cost.output_cost, total_cost := cost.total_cost
      timestamp := now }
  ({ usage_history := t.usage_history ++ [usage]
     cost_history := t.cost_history ++ [cost_metrics] },
   usage, cost_metrics)

end Tracker

namespace Gateway

theorem countDone_append (a b : List Frame) :
    countDone (a ++ b) = countDone a + countDone b := by
  induction a with
  | nil => simp [countDone]
  | cons f rest ih => cases f <;> (simp [countDone, ih]; try omega)

theorem countError_append (a b : List Frame) :
    countError (a ++ b) = countError a + countError b := by
  induction a with
  | nil => simp [countError]
  | cons f rest ih => cases f <;> (simp [countError, ih]; try omega)

theorem countDone_map_content (cs : List String) :
    countDone (cs.map Frame.content) = 0 := by
  induction cs with
  | nil => rfl
  | cons c rest ih => simpa [countDone] using ih

theorem countError_map_content (cs : List String) :
    countError (cs.map Frame.content) = 0 := by
  induction cs with
  | nil => rfl
  | cons c rest ih => simpa [countError] using ih

/-- Every frame list the loop produces is a run of content frames,
optionally closed by a single sentinel or a single error frame. -/
theorem processEvents_shape (evs : List StreamEvent) :
    ∃ cs : List String,
      processEvents evs = cs.map Frame.content ∨
      processEvents evs = cs.map Frame.content ++ [Frame.done] ∨
      ∃ m, processEvents evs = cs.map Frame.content ++ [Frame.error m] := by
  induction evs with
  | nil => exact ⟨[], Or.inl rfl⟩
  | cons e rest ih =>
      cases e with
      | nonChunk => simpa [processEvents] using ih
      | raiseExc m => exact ⟨[], Or.inr (Or.inr ⟨m, rfl⟩)⟩
      | chunk d ty =>
          cases hstop : ty == some "message_stop" with
          | true =>
              cases d with
              | none => exact ⟨[], Or.inr (Or.inl (by simp [processEvents, hstop]))⟩
              | some t => exact ⟨[t], Or.inr (Or.inl (by simp [processEvents, hstop]))⟩
          | false =>
              obtain ⟨cs, hc⟩ := ih
              cases d with
              | none =>
                  refine ⟨cs, ?_⟩
                  rcases hc with h | h | ⟨m, h⟩ <;> simp [processEvents, hstop, h]
              | some t =>
                  refine ⟨t :: cs, ?_⟩
                  rcases hc with h | h | ⟨m, h⟩ <;> simp [processEvents, hstop, h]

theorem countDone_le_one (evs : List StreamEvent) :
    countDone (processEvents evs) ≤ 1 := by
  obtain ⟨cs, h | h | ⟨m, h⟩⟩ := processEvents_shape evs <;>
    simp [h, countDone_append, countDone_map_content, countDone]

theorem countError_le_one (evs : List StreamEvent) :
    countError (processEvents evs) ≤ 1 := by
  obtain ⟨cs, h | h | ⟨m, h⟩⟩ := processEvents_shape evs <;>
    simp [h, countError_append, countError_map_content, countError]

/-- A sentinel or error frame is always the final frame emitted. -/
theorem nonContent_frame_last (evs : List StreamEvent) (l₁ : List Frame) (f : Frame)
    (l₂ : List Frame) (hf : ∀ t, f ≠ Frame.content t)
    (h : processEvents evs = l₁ ++ f :: l₂) : l₂ = [] := by
  induction evs generalizing l₁ with
  | nil => simp [processEvents] at h
  | cons e rest ih =>
      cases e with
      | nonChunk => exact ih l₁ (by simpa [processEvents] using h)
      | raiseExc m =>
          simp only [processEvents] at h
          cases l₁ with
          | nil =>
              injection h with h1 h2
              exact h2.symm
          | cons a as =>
              injection h with h1 h2
              rcases List.append_eq_nil.mp h2.symm with ⟨-, h3⟩
              exact absurd h3 (List.cons_ne_nil f l₂)
      | chunk d ty =>
          cases hstop : ty == some "message_stop" with
          | true =>
              cases d with
              | none =>
                  rw [show processEvents (StreamEvent.chunk none ty :: rest) =
                    [Frame.done] by simp [processEvents, hstop]] at h
                  cases l₁ with
                  | nil =>
                      injection h with h1 h2
                      exact h2.symm
                  | cons a as =>
                      injection h with h1 h2
                      rcases List.append_eq_nil.mp h2.symm with ⟨-, h3⟩
                      exact absurd h3 (List.cons_ne_nil f l₂)
              | some t =>
                  rw [show processEvents (StreamEvent.chunk (some t) ty :: rest) =
                    [Frame.content t, Frame.done] by simp [processEvents, hstop]] at h
                  cases l₁ with
                  | nil =>
                      injection h with h1 h2
                      exact absurd h1.symm (hf t)
                  | cons a as =>
                      injection h with h1 h2
                      cases as with
                      | nil =>
                          injection h2 with h3 h4
                          exact h4.symm
                      | cons b bs =>
                          injection h2 with h3 h4
                          rcases List.append_eq_nil.mp h4.symm with ⟨-, h5⟩
                          exact absurd h5 (List.cons_ne_nil f l₂)
          | false =>
              cases d with
              | none => exact ih l₁ (by simpa [processEvents, hstop] using h)
              | some t =>
                  rw [show processEvents (StreamEvent.chunk (some t) ty :: rest) =
                    Frame.content t :: processEvents rest by
                      simp [processEvents, hstop]] at h
                  cases l₁ with
                  | nil =>
                      injection h with h1 h2
                      exact absurd h1.symm (hf t)
                  | cons a as =>
                      injection h with h1 h2
                      exact ih as h2

/-- A raise-free stream containing a stop chunk yields exactly one sentinel. -/
theorem countDone_of_stop (evs : List StreamEvent)
    (hnr : evs.all (fun e => !isRaiseEvent e) = true)
    (hs : evs.any isStopEvent = true) :
    countDone (processEvents evs) = 1 := by
  induction evs with
  | nil => simp at hs
  | cons e rest ih =>
      simp only [List.all_cons, Bool.and_eq_true] at hnr
      simp only [List.any_cons, Bool.or_eq_true] at hs
      cases e with
      | nonChunk =>
          simp only [processEvents]
          exact ih hnr.2 (by simpa [isStopEvent] using hs)
      | raiseExc m => simp [isRaiseEvent] at hnr
      | chunk d ty =>
          cases hstop : ty == some "message_stop" with
          | true =>
              cases d <;> simp [processEvents, hstop, countDone_append, countDone]
          | false =>
              have hs' : rest.any isStopEvent = true := by
                rcases hs with hs | hs
                · simp [isStopEvent, hstop] at hs
                · exact hs
              cases d <;>
                simp [processEvents, hstop, countDone_append, countDone, ih hnr.2 hs']

/-- After the first stop chunk, later events do not change the output:
the loop breaks there. -/
theorem processEvents_stop_halts (l₁ : List StreamEvent) (c : StreamEvent)
    (l₂ : List StreamEvent) (hc : isStopEvent c = true) :
    processEvents (l₁ ++ c :: l₂) = processEvents (l₁ ++ [c]) := by
  induction l₁ with
  | nil =>
      cases c with
      | chunk d ty =>
          simp only [isStopEvent] at hc
          cases d <;> simp [processEvents, hc]
      | nonChunk => simp [isStopEvent] at hc
      | raiseExc m => simp [isStopEvent] at hc
  | cons e rest ih =>
      cases e with
      | nonChunk => simpa [processEvents] using ih
      | raiseExc m => simp [processEvents]
      | chunk d ty =>
          cases hstop : ty == some "message_stop" with
          | true => cases d <;> simp [processEvents, hstop]
          | false => cases d <;> simp [processEvents, hstop, ih]

/-- An exception at a point not preceded by a stop chunk turns the tail
into a single error frame after the content frames already emitted. -/
theorem processEvents_raise (l₁ : List StreamEvent) (m : String)
    (l₂ : List StreamEvent)
    (hclean : l₁.all (fun e => !isRaiseEvent e && !isStopEvent e) = true) :
    processEvents (l₁ ++ StreamEvent.raiseExc m :: l₂) =
      deltaFrames l₁ ++ [Frame.error m] := by
  induction l₁ with
  | nil => simp [processEvents, deltaFrames]
  | cons e rest ih =>
      simp only [List.all_cons, Bool.and_eq_true] at hclean
      obtain ⟨⟨hr, hs⟩, hrest⟩ := hclean
      cases e with
      | nonChunk => simpa [processEvents, deltaFrames] using ih hrest
      | raiseExc m' => simp [isRaiseEvent] at hr
      | chunk d ty =>
          have hstop : (ty == some "message_stop") = false := by
            simpa [isStopEvent] using hs
          cases d <;> simp [processEvents, hstop, deltaFrames, ih hrest]

/-- C1: for every finite sequence of provider stream events the
translator emits the `data: [DONE]` sentinel at most once; on a
raise-free stream containing a `message_stop` chunk it emits it
exactly once; it stops consuming events at the first stop chunk; and
no frame of any kind follows the sentinel. -/
theorem stream_translator_sentinel :
    (∀ evs, countDone (processEvents evs) ≤ 1) ∧
    (∀ evs, evs.all (fun e => !isRaiseEvent e) = true →
      evs.any isStopEvent = true → countDone (processEvents evs) = 1) ∧
    (∀ l₁ c l₂, isStopEvent c = true →
      processEvents (l₁ ++ c :: l₂) = processEvents (l₁ ++ [c])) ∧
    (∀ evs l₁ l₂, processEvents evs = l₁ ++ Frame.done :: l₂ → l₂ = []) :=
  ⟨countDone_le_one, countDone_of_stop, processEvents_stop_halts,
   fun evs l₁ l₂ h =>
     nonContent_frame_last evs l₁ Frame.done l₂ (fun t => by simp) h⟩

/-- C1 witness: the spec's concrete scenario, two text deltas then a
stop chunk, yields exactly one sentinel. -/
theorem stream_translator_sentinel_witness :
    countDone (processEvents
      [StreamEvent.chunk (some "a") none, StreamEvent.chunk (some "b") none,
       StreamEvent.chunk none (some "message_stop")]) = 1 :=
  stream_translator_sentinel.2.1
    [StreamEvent.chunk (some "a") none, StreamEvent.chunk (some "b") none,
     StreamEvent.chunk none (some "message_stop")]
    (by decide) (by decide)

/-- C3: a missing provider body yields exactly the single error frame
and nothing else; an exception while iterating yields the already
emitted content frames, one error frame and termination; every run
emits at most one error frame, and any error frame is the final
frame. -/
theorem stream_translator_error_handling :
    (stream_bedrock_response none = [Frame.error "No response stream"]) ∧
    (∀ l₁ m l₂, l₁.all (fun e => !isRaiseEvent e && !isStopEvent e) = true →
      processEvents (l₁ ++ StreamEvent.raiseExc m :: l₂) =
        deltaFrames l₁ ++ [Frame.error m]) ∧
    (∀ evs, countError (processEvents evs) ≤ 1) ∧
    (∀ evs l₁ m l₂, processEvents evs = l₁ ++ Frame.error m :: l₂ → l₂ = []) :=
  ⟨rfl, processEvents_raise, countError_le_one,
   fun evs l₁ m l₂ h =>
     nonContent_frame_last evs l₁ (Frame.error m) l₂ (fun t => by simp) h⟩

/-- C3 witness: a content chunk, then an exception, then an ignored
trailing chunk: one content frame, one terminal error frame. -/
theorem stream_translator_error_handling_witness :
    processEvents [StreamEvent.chunk (some "x") none, StreamEvent.raiseExc "boom",
      StreamEvent.chunk (some "y") none] =
      [Frame.content "x", Frame.error "boom"] := by
  have h := stream_translator_error_handling.2.1
    [StreamEvent.chunk (some "x") none] "boom"
    [StreamEvent.chunk (some "y") none] (by decide)
  simpa [deltaFrames] using h

end Gateway

namespace Auth

/-- C2: auto-detection follows the fixed priority order
bearer-API-key, SSO profile, access-key plus secret-key pair, CLI
default; and when a signal of some priority is present, the signals
below it never influence the outcome. -/
theorem detect_auth_method_priority :
    (∀ w : World, truthyEnv w.bearerToken = true →
      detect_auth_method w = AuthMethod.BEDROCK_API_KEY) ∧
    (∀ w : World, truthyEnv w.bearerToken = false → truthyEnv w.awsProfile = true →
      detect_auth_method w = AuthMethod.SSO_PROFILE) ∧
    (∀ w : World, truthyEnv w.bearerToken = false → truthyEnv w.awsProfile = false →
      (truthyEnv w.accessKeyId && truthyEnv w.secretAccessKey) = true →
      detect_auth_method w = AuthMethod.ENV_VARS) ∧
    (∀ w : World, truthyEnv w.bearerToken = false → truthyEnv w.awsProfile = false →
      (truthyEnv w.accessKeyId && truthyEnv w.secretAccessKey) = false →
      detect_auth_method w = AuthMethod.AWS_CLI) ∧
    (∀ w w' : World, truthyEnv w.bearerToken = true → truthyEnv w'.bearerToken = true →
      detect_auth_method w = detect_auth_method w') ∧
    (∀ w w' : World, truthyEnv w.bearerToken = truthyEnv w'.bearerToken →
      truthyEnv w.awsProfile = true → truthyEnv w'.awsProfile = true →
      detect_auth_method w = detect_auth_method w') ∧
    (∀ w w' : World, truthyEnv w.bearerToken = truthyEnv w'.bearerToken →
      truthyEnv w.awsProfile = truthyEnv w'.awsProfile →
      (truthyEnv w.accessKeyId && truthyEnv w.secretAccessKey) = true →
      (truthyEnv w'.accessKeyId && truthyEnv w'.secretAccessKey) = true →
      detect_auth_method w = detect_auth_method w') := by
  refine ⟨?_, ?_, ?_, ?_, ?_, ?_, ?_⟩
  · intro w h
    simp [detect_auth_method, h]
  · intro w h1 h2
    simp [detect_auth_method, h1, h2]
  · intro w h1 h2 h3
    simp [detect_auth_method, h1, h2, h3]
  · intro w h1 h2 h3
    simp [detect_auth_method, h1, h2, h3]
  · intro w w' h1 h2
    simp [detect_auth_method, h1, h2]
  · intro w w' hb h1 h2
    cases hbv : truthyEnv w.bearerToken with
    | true => simp [detect_auth_method, hbv, hb ▸ hbv]
    | false => simp [detect_auth_method, hbv, hb ▸ hbv, h1, h2]
  · intro w w' hb hp h1 h2
    cases hbv : truthyEnv w.bearerToken with
    | true => simp [detect_auth_method, hbv, hb ▸ hbv]
    | false =>
        cases hpv : truthyEnv w.awsProfile with
        | true => simp [detect_auth_method, hbv, hb ▸ hbv, hpv, hp ▸ hpv]
        | false => simp [detect_auth_method, hbv, hb ▸ hbv, hpv, hp ▸ hpv, h1, h2]

/-- C2 witness: a bearer token plus a full set of lower-priority
signals still detects the bearer-API-key method. -/
theorem detect_auth_method_priority_witness :
    detect_auth_method
      { bearerToken := some "tok", awsProfile := some "dev",
        accessKeyId := some "AK", secretAccessKey := some "SK", awsRegion := none,
        cliStsCall := Except.ok "arn", profileStsCall := Except.ok "arn",
        verifyStsCall := Except.ok "arn" } = AuthMethod.BEDROCK_API_KEY :=
  detect_auth_method_priority.1
    { bearerToken := some "tok", awsProfile := some "dev",
      accessKeyId := some "AK", secretAccessKey := some "SK", awsRegion := none,
      cliStsCall := Except.ok "arn", profileStsCall := Except.ok "arn",
      verifyStsCall := Except.ok "arn" } (by decide)

/-- C5 counterexample: all construction branches succeed via the CLI
default, the verification call fails with an exception that is not a
`ClientError`, and `authenticate` surfaces exactly that exception —
not `NoCredentials` — contradicting the claim that any verification
failure converts to `NoCredentials`. -/
theorem authenticate_other_error_counterexample :
    authenticate
      { bearerToken := none, awsProfile := none, accessKeyId := none,
        secretAccessKey := none, awsRegion := none,
        cliStsCall := Except.ok "arn", profileStsCall := Except.ok "arn",
        verifyStsCall := Except.error (PyExc.otherExc "connection timeout") }
      "us-east-1" none =
      Except.error (PyExc.otherExc "connection timeout") ∧
    isNoCredentials (PyExc.otherExc "connection timeout") = false :=
  ⟨rfl, rfl⟩

/-- C5 (amended): every construction branch is followed by the
mandatory verification call, so `authenticate` never returns a session
when the identity check did not succeed; a `ClientError` failure of
the check converts to `NoCredentials`, while a failure of any other
exception class propagates unchanged. -/
theorem authenticate_verification :
    (∀ w region method s, authenticate w region method = Except.ok s →
      ∃ arn, w.verifyStsCall = Except.ok arn) ∧
    (∀ w region method s m,
      constructSession w region (method.getD (detect_auth_method w)) = Except.ok s →
      w.verifyStsCall = Except.error (PyExc.clientError m) →
      authenticate w region method =
        Except.error (PyExc.noCredentialsError ("Invalid credentials: " ++ m))) ∧
    (∀ w region method s e,
      constructSession w region (method.getD (detect_auth_method w)) = Except.ok s →
      w.verifyStsCall = Except.error e → (∀ m, e ≠ PyExc.clientError m) →
      authenticate w region method = Except.error e) := by
  refine ⟨?_, ?_, ?_⟩
  · intro w region method s h
    unfold authenticate at h
    cases hc : constructSession w region (method.getD (detect_auth_method w)) with
    | error e => rw [hc] at h; exact absurd h (by simp)
    | ok s' =>
        rw [hc] at h
        unfold verify_credentials at h
        cases hv : w.verifyStsCall with
        | ok arn => exact ⟨arn, rfl⟩
        | error e => rw [hv] at h; cases e <;> simp at h
  · intro w region method s m hc hv
    unfold authenticate
    rw [hc]
    unfold verify_credentials
    rw [hv]
  · intro w region method s e hc hv hne
    unfold authenticate
    rw [hc]
    unfold verify_credentials
    rw [hv]
    cases e with
    | clientError m => exact absurd rfl (hne m)
    | noCredentialsError m => rfl
    | valueError m => rfl
    | otherExc m => rfl

/-- C5 witness: with the CLI branch constructing successfully and the
identity check failing with a `ClientError`, `authenticate` returns
`NoCredentials`. -/
theorem authenticate_verification_witness :
    authenticate
      { bearerToken := none, awsProfile := none, accessKeyId := none,
        secretAccessKey := none, awsRegion := none,
        cliStsCall := Except.ok "arn", profileStsCall := Except.ok "arn",
        verifyStsCall := Except.error (PyExc.clientError "denied") }
      "us-east-1" none =
      Except.error (PyExc.noCredentialsError ("Invalid credentials: " ++ "denied")) :=
  authenticate_verification.2.1
    { bearerToken := none, awsProfile := none, accessKeyId := none,
      secretAccessKey := none, awsRegion := none,
      cliStsCall := Except.ok "arn", profileStsCall := Except.ok "arn",
      verifyStsCall := Except.error (PyExc.clientError "denied") }
    "us-east-1" none ⟨"us-east-1", none, none, none⟩ "denied" rfl rfl

end Auth

namespace Gateway

theorem convertMessagesAux_fst (ms : List ChatMessage) (msgs : List BedrockMessage)
    (sys : Option String) :
    (convertMessagesAux ms (msgs, sys)).1 =
      msgs ++ (ms.filter (fun m => m.role == "user" || m.role == "assistant")).map
        (fun m => ({ role := m.role, content := m.content } : BedrockMessage)) := by
  induction ms generalizing msgs sys with
  | nil => simp [convertMessagesAux]
  | cons m rest ih =>
      cases hsys : m.role == "system" with
      | true =>
          have hrole : m.role = "system" := by simpa using hsys
          have hu : (m.role == "user" || m.role == "assistant") = false := by
            rw [hrole]; rfl
          simp [convertMessagesAux, hsys, List.filter_cons, hu, ih]
      | false =>
          cases hua : (m.role == "user" || m.role == "assistant") with
          | true => simp [convertMessagesAux, hsys, hua, List.filter_cons, ih]
          | false => simp [convertMessagesAux, hsys, hua, List.filter_cons, ih]

theorem convertMessagesAux_snd (ms : List ChatMessage) (msgs : List BedrockMessage)
    (sys : Option String) :
    (convertMessagesAux ms (msgs, sys)).2 =
      ms.foldl (fun acc m => if m.role == "system" then some m.content else acc) sys := by
  induction ms generalizing msgs sys with
  | nil => simp [convertMessagesAux]
  | cons m rest ih =>
      cases hsys : m.role == "system" with
      | true =>
          have hrole : m.role = "system" := by simpa using hsys
          simp [convertMessagesAux, hsys, ih, hrole]
      | false =>
          have hrole : ¬ m.role = "system" := by simpa using hsys
          cases hua : (m.role == "user" || m.role == "assistant") with
          | true => simp [convertMessagesAux, hsys, hua, ih, hrole]
          | false => simp [convertMessagesAux, hsys, hua, ih, hrole]

theorem foldl_system_last (ms : List ChatMessage) (sys : Option String) :
    ms.foldl (fun acc m => if m.role == "system" then some m.content else acc) sys =
      ((ms.reverse.find? (fun m => m.role == "system")).map ChatMessage.content).or sys := by
  induction ms generalizing sys with
  | nil => simp
  | cons m rest ih =>
      simp only [List.foldl_cons, List.reverse_cons]
      rw [ih, List.find?_append]
      cases hf : rest.reverse.find? (fun m => m.role == "system") with
      | some m' => simp
      | none =>
          cases hsys : m.role == "system" with
          | true => simp [List.find?, hsys]
          | false => simp [List.find?, hsys]

/-- The final `system_message` value is the content of the last
role=system message. -/
theorem systemMessageVar_eq_find (ms : List ChatMessage) :
    systemMessageVar ms =
      (ms.reverse.find? (fun m => m.role == "system")).map ChatMessage.content := by
  rw [systemMessageVar, convertMessagesAux_snd, foldl_system_last]
  simp

/-- C4: `convert_messages` keeps the content of only the last
role=system message in its local variable (earlier ones are
overwritten), returns exactly the user and assistant messages with
role, content and order preserved, and the provider request built
from the returned list never carries a `system` field. -/
theorem convert_messages_spec :
    (∀ ms, convert_messages ms =
      (ms.filter (fun m => m.role == "user" || m.role == "assistant")).map
        (fun m => ({ role := m.role, content := m.content } : BedrockMessage))) ∧
    (∀ ms, systemMessageVar ms =
      (ms.reverse.find? (fun m => m.role == "system")).map ChatMessage.content) ∧
    (∀ r, (buildBedrockRequest r).system = none) :=
  ⟨fun ms => convertMessagesAux_fst ms [] none,
   systemMessageVar_eq_find,
   fun _ => rfl⟩

/-- C10: a message whose role is none of system, user or assistant is
silently dropped: the converted list and the `system_message` variable
are those of the list without it (and conversion is total, so no error
is raised). -/
theorem unknown_role_dropped (l₁ l₂ : List ChatMessage) (m : ChatMessage)
    (h1 : m.role ≠ "system") (h2 : m.role ≠ "user") (h3 : m.role ≠ "assistant") :
    convert_messages (l₁ ++ m :: l₂) = convert_messages (l₁ ++ l₂) ∧
    systemMessageVar (l₁ ++ m :: l₂) = systemMessageVar (l₁ ++ l₂) := by
  have hu : (m.role == "user" || m.role == "assistant") = false := by
    simp [h2, h3]
  have hs : (m.role == "system") = false := by simp [h1]
  constructor
  · rw [convert_messages, convert_messages, convertMessagesAux_fst, convertMessagesAux_fst]
    simp [List.filter_append, List.filter_cons, hu]
  · rw [systemMessageVar_eq_find, systemMessageVar_eq_find]
    simp [List.find?_append, List.find?, hs]

/-- C10 witness: a role=tool message between a user and an assistant
message disappears from the conversion without affecting anything
else. -/
theorem unknown_role_dropped_witness :
    convert_messages [⟨"user", "hi"⟩, ⟨"tool", "t"⟩, ⟨"assistant", "yo"⟩] =
      convert_messages [⟨"user", "hi"⟩, ⟨"assistant", "yo"⟩] ∧
    systemMessageVar [⟨"user", "hi"⟩, ⟨"tool", "t"⟩, ⟨"assistant", "yo"⟩] =
      systemMessageVar [⟨"user", "hi"⟩, ⟨"assistant", "yo"⟩] :=
  unknown_role_dropped [⟨"user", "hi"⟩] [⟨"assistant", "yo"⟩] ⟨"tool", "t"⟩
    (by decide) (by decide) (by decide)

/-- A `model_mapping` dict-get always lands on a provider-native id. -/
theorem marker_in_lookup (s : String) :
    occursIn bedrockMarker
      ((model_mapping.lookup s).getD "anthropic.claude-sonnet-4-5-20250929-v1:0").data =
      true := by
  simp only [model_mapping, List.lookup]
  split
  · decide
  · split
    · decide
    · split
      · decide
      · split
        · decide
        · decide

/-- C6: the model name mapper passes provider-native identifiers (the
namespace marker occurs in the input) through unchanged, resolves
known aliases through the static table, falls back to the flagship
model for unknown aliases, and is idempotent on every input. -/
theorem map_model_name_spec :
    (∀ s, occursIn bedrockMarker s.data = true → map_model_name s = s) ∧
    (∀ s v, occursIn bedrockMarker s.data = false → model_mapping.lookup s = some v →
      map_model_name s = v) ∧
    (∀ s, occursIn bedrockMarker s.data = false → model_mapping.lookup s = none →
      map_model_name s = "anthropic.claude-sonnet-4-5-20250929-v1:0") ∧
    (∀ s, map_model_name (map_model_name s) = map_model_name s) := by
  refine ⟨?_, ?_, ?_, ?_⟩
  · intro s h
    simp [map_model_name, h]
  · intro s v h hl
    simp [map_model_name, h, hl]
  · intro s h hl
    simp [map_model_name, h, hl]
  · intro s
    cases h : occursIn bedrockMarker s.data with
    | true => simp [map_model_name, h]
    | false =>
        have hm := marker_in_lookup s
        simp [map_model_name, h, hm]

/-- C6 witness: the alias "gpt-4" (marker absent) maps to the sonnet
id, and mapping is idempotent there. -/
theorem map_model_name_spec_witness :
    map_model_name "gpt-4" = "anthropic.claude-sonnet-4-5-20250929-v1:0" ∧
    map_model_name (map_model_name "gpt-4") = map_model_name "gpt-4" :=
  ⟨map_model_name_spec.2.1 "gpt-4" "anthropic.claude-sonnet-4-5-20250929-v1:0"
    (by decide) rfl,
   map_model_name_spec.2.2.2 "gpt-4"⟩

theorem foldl_text_append (blocks : List ContentBlock) (acc : String) :
    blocks.foldl (fun acc b =>
        match b with
        | ContentBlock.text s => acc ++ s
        | ContentBlock.other _ => acc) acc =
      acc ++ concatTexts (blocks.filterMap fun b =>
        match b with
        | ContentBlock.text s => some s
        | ContentBlock.other _ => none) := by
  induction blocks generalizing acc with
  | nil => simp [concatTexts]
  | cons b rest ih =>
      cases b with
      | text s => simp [List.filterMap_cons, concatTexts, ih, String.append_assoc]
      | other ty => simp [List.filterMap_cons, concatTexts, ih]

/-- C7: the non-streaming translator produces a single assistant
choice whose content is the in-order concatenation of the text-typed
blocks, a fixed finish_reason of "stop", and usage whose total is the
sum of the provider input and output token counts, each read with
default 0 when absent. -/
theorem convert_to_openai_format_spec (resp : BedrockResponse) (om : String) (now : Nat) :
    (convert_to_openai_format resp om now).choices =
      [{ index := 0
         message := { role := "assistant", content := concatTexts (textBlocks resp) }
         finish_reason := "stop" }] ∧
    (convert_to_openai_format resp om now).usage.prompt_tokens = usageInputTokens resp ∧
    (convert_to_openai_format resp om now).usage.completion_tokens = usageOutputTokens resp ∧
    (convert_to_openai_format resp om now).usage.total_tokens =
      usageInputTokens resp + usageOutputTokens resp := by
  refine ⟨?_, rfl, rfl, rfl⟩
  cases hc : resp.content with
  | none => simp [convert_to_openai_format, textBlocks, hc, concatTexts]
  | some blocks => simp [convert_to_openai_format, textBlocks, hc, foldl_text_append]

/-- C8 counterexample: a request carrying `top_p = 0.0` and an empty
stop list — both present — produces a provider request with neither
field included, because the source guards them with Python
truthiness. -/
theorem request_truthiness_counterexample :
    ({ model := "m", messages := [], temperature := 1, max_tokens := none,
       stream := false, top_p := some 0, stop := some ([] : List String) } :
        ChatCompletionRequest).top_p = some 0 ∧
    (buildBedrockRequest
      { model := "m", messages := [], temperature := 1, max_tokens := none,
        stream := false, top_p := some 0, stop := some [] }).top_p = none ∧
    ({ model := "m", messages := [], temperature := 1, max_tokens := none,
       stream := false, top_p := some 0, stop := some ([] : List String) } :
        ChatCompletionRequest).stop = some [] ∧
    (buildBedrockRequest
      { model := "m", messages := [], temperature := 1, max_tokens := none,
        stream := false, top_p := some 0, stop := some [] }).stop_sequences = none := by
  refine ⟨rfl, ?_, rfl, ?_⟩
  · simp [buildBedrockRequest]
  · simp [buildBedrockRequest]

/-- C8 (amended): `max_tokens` defaults to 4096 when absent and passes
through when present and nonzero (boundary validation enforces ≥ 1),
`temperature` passes through unchanged, and `top_p` and the stop list
are included if and only if they are present and truthy: a present
`top_p = 0.0` or an empty stop list is omitted. -/
theorem buildBedrockRequest_spec :
    (∀ r : ChatCompletionRequest, r.max_tokens = none →
      (buildBedrockRequest r).max_tokens = 4096) ∧
    (∀ (r : ChatCompletionRequest) n, r.max_tokens = some n → n ≠ 0 →
      (buildBedrockRequest r).max_tokens = n) ∧
    (∀ r : ChatCompletionRequest, (buildBedrockRequest r).temperature = r.temperature) ∧
    (∀ (r : ChatCompletionRequest) p, r.top_p = some p → p ≠ 0 →
      (buildBedrockRequest r).top_p = some p) ∧
    (∀ r : ChatCompletionRequest, r.top_p = none ∨ r.top_p = some 0 →
      (buildBedrockRequest r).top_p = none) ∧
    (∀ (r : ChatCompletionRequest) l, r.stop = some l → l ≠ [] →
      (buildBedrockRequest r).stop_sequences = some l) ∧
    (∀ r : ChatCompletionRequest, r.stop = none ∨ r.stop = some [] →
      (buildBedrockRequest r).stop_sequences = none) := by
  refine ⟨?_, ?_, ?_, ?_, ?_, ?_, ?_⟩
  · intro r h
    simp [buildBedrockRequest, h]
  · intro r n h hn
    simp [buildBedrockRequest, h, hn]
  · intro r
    rfl
  · intro r p h hp
    simp [buildBedrockRequest, h, hp]
  · intro r h
    rcases h with h | h <;> simp [buildBedrockRequest, h]
  · intro r l h hl
    simp [buildBedrockRequest, h, hl]
  · intro r h
    rcases h with h | h <;> simp [buildBedrockRequest, h]

/-- C8 witness: a request with no optional fields set gets the 4096
default, an unchanged temperature and no top_p or stop entries. -/
theorem buildBedrockRequest_spec_witness :
    (buildBedrockRequest
      { model := "m", messages := [], temperature := 1, max_tokens := none,
        stream := false, top_p := none, stop := none }).max_tokens = 4096 ∧
    (buildBedrockRequest
      { model := "m", messages := [], temperature := 1, max_tokens := none,
        stream := false, top_p := none, stop := none }).top_p = none :=
  ⟨buildBedrockRequest_spec.1
    { model := "m", messages := [], temperature := 1, max_tokens := none,
      stream := false, top_p := none, stop := none } rfl,
   buildBedrockRequest_spec.2.2.2.2.1
    { model := "m", messages := [], temperature := 1, max_tokens := none,
      stream := false, top_p := none, stop := none } (Or.inl rfl)⟩

end Gateway

namespace Tracker

/-- C9: `record_usage` is total (so it never raises) and appends one
usage and one cost entry; for a model id present in the price table,
one million input tokens and zero output tokens cost exactly the
listed per-million input price; an absent model id is priced exactly
like the fallback (haiku) model. -/
theorem record_usage_spec :
    (∀ mid pIn pOut, PRICING.lookup mid = some (pIn, pOut) →
      (calculate_cost mid 1000000 0).input_cost = pIn) ∧
    (∀ mid i o, PRICING.lookup mid = none →
      calculate_cost mid i o =
        calculate_cost "anthropic.claude-haiku-4-5-20251001-v1:0" i o) ∧
    (∀ t mid i o now,
      (record_usage t mid i o now).1.usage_history.length =
          t.usage_history.length + 1 ∧
      (record_usage t mid i o now).1.cost_history.length =
          t.cost_history.length + 1) ∧
    (∀ t mid i o now,
      (record_usage t mid i o now).2.2.input_cost = (calculate_cost mid i o).input_cost ∧
      (record_usage t mid i o now).2.2.output_cost = (calculate_cost mid i o).output_cost) := by
  refine ⟨?_, ?_, ?_, ?_⟩
  · intro mid pIn pOut h
    simp [calculate_cost, h]
  · intro mid i o h
    have hh : PRICING.lookup "anthropic.claude-haiku-4-5-20251001-v1:0" =
        some ((0.25 : ℚ), (1.25 : ℚ)) := rfl
    simp only [calculate_cost, h, hh, Option.getD_none, Option.getD_some]
  · intro t mid i o now
    constructor <;> simp [record_usage]
  · intro t mid i o now
    constructor <;>
      (simp only [record_usage, costMetricsPostInit]; split <;> rfl)

/-- C9 witness: recording one million input tokens against the sonnet
model id yields an input cost of exactly its listed price of 3, and the
unknown-model fallback prices like haiku. -/
theorem record_usage_spec_witness :
    (calculate_cost "anthropic.claude-sonnet-4-5-20250929-v1:0" 1000000 0).input_cost =
      3 ∧
    calculate_cost "unknown-model" 1000 1000 =
      calculate_cost "anthropic.claude-haiku-4-5-20251001-v1:0" 1000 1000 :=
  ⟨record_usage_spec.1 "anthropic.claude-sonnet-4-5-20250929-v1:0" 3 15 rfl,
   record_usage_spec.2.1 "unknown-model" 1000 1000 rfl⟩

end Tracker
